import Mathlib

/-!
Shallow embedding of the MicroService2 item microservice (FastAPI +
SQLAlchemy + pydantic), used to check its natural-language specification.

Conventions of the embedding:

- database rows are Lean structures; the relational store is explicit
  state (`DB` for items/categories/links, `List Job` for jobs);
- SQLAlchemy `DateTime` values are `PyDateTime` records (naive UTC
  timestamps, compared field by field, exactly as Python compares two
  naive `datetime` objects);
- UUIDs and category ids are opaque identifiers modelled as `Nat`;
- `Float` prices are modelled as integers (no claim computes on a price);
- Python strings are `String`, or `List Char` where character-level
  behaviour matters (the ETag / If-Match headers);
- fallible code returns `Except PyError`; the `PyError` constructors name
  the `HTTPException` status codes the services raise and the Python
  exception classes (`TypeError`, `AttributeError`) that the source can
  raise at runtime;
- an `async def` called WITHOUT `await` from a sync context evaluates to a
  coroutine object whose body never runs; such values are modelled with
  `PyCoroutine`, which records the state transformation that awaiting
  would have performed but is otherwise inert.
-/

/-- A naive `datetime.datetime` value, as stored in the `DateTime` columns
(`created_at`, `updated_at`) and produced by `datetime.utcnow`. -/
structure PyDateTime where
  year : Nat
  month : Nat
  day : Nat
  hour : Nat
  minute : Nat
  second : Nat
  microsecond : Nat
  deriving DecidableEq

/-- `TransactionType` enum of src/models/item.py. -/
inductive TransactionType where
  | SALE
  | RENT
  deriving DecidableEq

/-- `ConditionType` enum of src/models/item.py. -/
inductive ConditionType where
  | BRAND_NEW
  | LIKE_NEW
  | GOOD
  | POOR
  deriving DecidableEq

/-- `JobStatus` enum of src/models/job.py. -/
inductive JobStatus where
  | PENDING
  | RUNNING
  | COMPLETED
  | FAILED
  deriving DecidableEq

/-- Failure outcomes the modelled code can produce: the `HTTPException`
status codes raised by the services and endpoints, plus the Python
runtime errors the source can raise (`TypeError` from the SQLAlchemy
declarative constructor, `AttributeError` from a missing attribute). -/
inductive PyError where
  | notFound404
  | precondition412
  | badRequest400
  | typeError
  | attributeError
  deriving DecidableEq

/-- Opaque identifier (UUID in the source). -/
abbrev ItemUUID := Nat

/-- ORM `Item` row (src/models/orm_item.py): mapped columns only.
`categories` is the many-to-many relationship and lives in `DB.links`. -/
structure Item where
  item_UUID : ItemUUID
  title : String
  description : Option String
  condition : ConditionType
  transaction_type : TransactionType
  price : Int
  address_UUID : Option ItemUUID
  image_urls : List String
  created_at : PyDateTime
  updated_at : PyDateTime
  deriving DecidableEq

/-- ORM `Category` row (src/models/orm_item.py).  Note its primary key
attribute is named `id` — the model declares NO attribute named
`category_UUID`. -/
structure Category where
  id : ItemUUID
  name : String
  description : Option String
  deriving DecidableEq

/-- The relational store: `items`, `categories`, and the
`item_category_link` table as (item id, category id) pairs. -/
structure DB where
  items : List Item
  categories : List Category
  links : List (ItemUUID × ItemUUID)
  deriving DecidableEq

/-- `Job` row (src/models/orm_job.py). -/
structure Job where
  job_UUID : ItemUUID
  status : JobStatus
  item_UUID : Option ItemUUID
  error_message : Option String
  deriving DecidableEq

/-- An unawaited coroutine object: calling an `async def` without `await`
from a sync context yields one of these.  `resume` is the state
transformation the body WOULD perform if awaited; a discarded coroutine
performs no effect at all. -/
structure PyCoroutine (α : Type) where
  resume : α

/-- Primary-key lookup on the items table.  Models both
`MySQLDataService.get` (`db.get(self.model, id_)`) and the
`select(self.model).where(self.model.item_UUID == item_id)` query of
`update_with_lock`. -/
def findItem (db : DB) (id_ : ItemUUID) : Option Item :=
  db.items.find? (fun it => it.item_UUID == id_)

/-- `MySQLDataService.get` specialised to `Item` (src/services/MySQLDataService.py). -/
def MySQLDataService.get (db : DB) (id_ : ItemUUID) : Option Item :=
  findItem db id_

/-- The pydantic field names of `ItemUpdate` (src/models/item.py, lines
150-189): the partial-update model declares `category_ids : Optional[List[int]]`
— there is NO field named `category_UUIDs`. -/
def ItemUpdate.fieldNames : List String :=
  ["title", "description", "condition", "category_ids", "transaction_type",
   "price", "address_UUID", "image_urls"]

/-- Partial-update payload (pydantic `ItemUpdate`).  `fields_set` models
`model_fields_set`: the field names the client explicitly supplied.
pydantic guarantees `model_fields_set` only contains declared field names
(unknown JSON keys are ignored by the default model config), recorded here
as `wf`.  A value left `none` while its name is in `fields_set` models an
explicit JSON null for a nullable column. -/
structure ItemUpdate where
  title : Option String
  description : Option String
  condition : Option ConditionType
  category_ids : Option (List ItemUUID)
  transaction_type : Option TransactionType
  price : Option Int
  address_UUID : Option ItemUUID
  image_urls : Option (List String)
  fields_set : List String
  wf : fields_set.all (fun f => decide (f ∈ ItemUpdate.fieldNames)) = true

/-- One `setattr(db_obj, key, value)` step of the update loop in
`ItemDataService.update_with_lock`.  Keys that are mapped columns update
the row; the key "category_ids" is NOT a mapped attribute of `Item`, so
`setattr` only creates a plain (non-instrumented) Python attribute and the
row is unchanged. -/
def setattrField (u : ItemUpdate) (it : Item) (f : String) : Item :=
  if f = "title" then { it with title := u.title.getD it.title }
  else if f = "description" then { it with description := u.description }
  else if f = "condition" then { it with condition := u.condition.getD it.condition }
  else if f = "transaction_type" then
    { it with transaction_type := u.transaction_type.getD it.transaction_type }
  else if f = "price" then { it with price := u.price.getD it.price }
  else if f = "address_UUID" then { it with address_UUID := u.address_UUID }
  else if f = "image_urls" then { it with image_urls := u.image_urls.getD it.image_urls }
  else it

/-- The `for key, value in update_data.items(): setattr(db_obj, key, value)`
loop, where `update_data = item_update.model_dump(exclude_unset=True,
exclude={"category_UUIDs"})`: every explicitly-set field except the
(nonexistent) key "category_UUIDs" is applied. -/
def applyUpdateData (u : ItemUpdate) (it : Item) : Item :=
  (u.fields_set.filter (fun f => f ≠ "category_UUIDs")).foldl (setattrField u) it

/-- The commit of `update_with_lock`: SQLAlchemy flushes the row produced
by the `setattr` loop (`obj1`) and fires `onupdate=datetime.utcnow` —
setting `updated_at` to the commit-time clock — exactly when some mapped
column's value actually changed; a flush with no net column change emits
no UPDATE and leaves `updated_at` alone. -/
def commitRow (now : PyDateTime) (db_obj obj1 : Item) : Item :=
  if obj1 = db_obj then obj1 else { obj1 with updated_at := now }

/-- `ItemDataService.update_with_lock` (src/services/ItemDataService.py,
lines 137-206).  `now` is the wall clock at commit time.  Order of the
source is preserved: row lookup (404), exact timestamp comparison (412),
the `setattr` loop (`applyUpdateData`), the
`"category_UUIDs" in item_update.model_fields_set` test guarding the
category-replacement block (inside it, `item_update.category_UUIDs` would
raise `AttributeError` since `ItemUpdate` has no such field), then commit
(`commitRow`).  Failure paths leave the transaction uncommitted, so the
store is returned unchanged. -/
def update_with_lock (db : DB) (now : PyDateTime) (item_id : ItemUUID)
    (item_update : ItemUpdate) (expected_updated_at : PyDateTime) :
    Except PyError Item × DB :=
  match findItem db item_id with
  | none => (Except.error PyError.notFound404, db)
  | some db_obj =>
    if db_obj.updated_at = expected_updated_at then
      if "category_UUIDs" ∈ item_update.fields_set then
        (Except.error PyError.attributeError, db)
      else
        (Except.ok (commitRow now db_obj (applyUpdateData item_update db_obj)),
         { db with items := db.items.map (fun x =>
             if x.item_UUID == item_id then
               commitRow now db_obj (applyUpdateData item_update db_obj)
             else x) })
    else
      (Except.error PyError.precondition412, db)

/-- Creation payload (pydantic `ItemCreate`, src/models/item.py): note the
category list field is named `category_ids`. -/
structure ItemCreate where
  title : String
  description : Option String
  condition : ConditionType
  transaction_type : TransactionType
  price : Int
  address_UUID : Option ItemUUID
  image_urls : List String
  category_ids : List ItemUUID

/-- The keys of `obj_in.model_dump()` for an `ItemCreate` payload: exactly
the declared pydantic fields. -/
def ItemCreate.dumpKeys : List String :=
  ["title", "description", "condition", "transaction_type", "price",
   "address_UUID", "image_urls", "category_ids"]

/-- The attribute names the SQLAlchemy declarative constructor
`Item(**kwargs)` accepts: the mapped columns and the `categories`
relationship.  Any other keyword raises `TypeError`. -/
def Item.mappedAttrs : List String :=
  ["item_UUID", "title", "description", "condition", "transaction_type",
   "price", "address_UUID", "image_urls", "created_at", "updated_at",
   "categories"]

/-- `ItemDataService.create` (src/services/ItemDataService.py, lines 20-46).
`create_data = obj_in.model_dump()` has the keys `ItemCreate.dumpKeys`;
`create_data.pop("category_UUIDs", [])` looks for a key the dump does not
have (the pydantic field is `category_ids`), so the pop misses and yields
the default `[]`, and the key `category_ids` stays in `create_data`.
`self.model(**create_data)` then applies the declarative constructor,
which raises `TypeError` on any keyword that is not a mapped attribute.
Were the constructor to succeed, the `if category_ids:` block would run
`select(Category).where(Category.category_UUID.in_(...))`, and
`Category.category_UUID` raises `AttributeError` (the ORM attribute is
`Category.id`). -/
def ItemDataService.create (db : DB) (now : PyDateTime) (newId : ItemUUID)
    (obj_in : ItemCreate) : Except PyError (Item × DB) :=
  let category_ids : List ItemUUID :=
    if ItemCreate.dumpKeys.contains "category_UUIDs" then obj_in.category_ids else []
  let create_data_keys := ItemCreate.dumpKeys.filter (fun k => k ≠ "category_UUIDs")
  if create_data_keys.all (fun k => Item.mappedAttrs.contains k) then
    let db_obj : Item :=
      { item_UUID := newId, title := obj_in.title, description := obj_in.description,
        condition := obj_in.condition, transaction_type := obj_in.transaction_type,
        price := obj_in.price, address_UUID := obj_in.address_UUID,
        image_urls := obj_in.image_urls, created_at := now, updated_at := now }
    if category_ids.isEmpty then
      Except.ok (db_obj, { db with items := db.items ++ [db_obj] })
    else
      Except.error PyError.attributeError
  else
    Except.error PyError.typeError

/-- Python truthiness of an `Optional[List[...]]` parameter: `None` and the
empty list are both falsy. -/
def truthyList {α : Type} (o : Option (List α)) : Bool :=
  match o with
  | none => false
  | some l => !l.isEmpty

/-- Python truthiness of an `Optional[str]` parameter: `None` and the empty
string are both falsy. -/
def truthyStr (o : Option String) : Bool :=
  match o with
  | none => false
  | some s => !s.isEmpty

/-- Python truthiness of an `Optional[TransactionType]`: the enum members
are nonempty strings, hence truthy. -/
def truthyTT (o : Option TransactionType) : Bool :=
  o.isSome

/-- Sort key for `order_by(created_at.desc())`: a lexicographic collapse of
the timestamp fields. -/
def dtKey (d : PyDateTime) : Nat :=
  (((((d.year * 13 + d.month) * 32 + d.day) * 25 + d.hour) * 61 + d.minute) * 61 + d.second)
    * 1000000 + d.microsecond

/-- Insertion step of `order_by(created_at.desc())`: newest first. -/
def insertByCreatedDesc (x : Item) : List Item → List Item
  | [] => [x]
  | y :: ys =>
    if dtKey y.created_at ≤ dtKey x.created_at then x :: y :: ys
    else y :: insertByCreatedDesc x ys

/-- `order_by(self.model.created_at.desc())`. -/
def sortByCreatedDesc (l : List Item) : List Item :=
  l.foldr insertByCreatedDesc []

/-- `.offset(skip).limit(limit)` applied after ordering. -/
def paginate (l : List Item) (skip limit : Nat) : List Item :=
  (l.drop skip).take limit

/-- Case-folded characters of a Python string. -/
def lowerChars (s : String) : List Char :=
  s.data.map Char.toLower

/-- Does `hay` start with `needle`? -/
def startsWithCh : List Char → List Char → Bool
  | _, [] => true
  | [], _ :: _ => false
  | a :: as, b :: bs => (a == b) && startsWithCh as bs

/-- Is `needle` a contiguous substring of `hay`? -/
def hasSub : List Char → List Char → Bool
  | [], needle => needle.isEmpty
  | a :: t, needle => startsWithCh (a :: t) needle || hasSub t needle

/-- `title ILIKE '%' || pat || '%'`: case-insensitive substring match
(LIKE wildcards inside the search string are not modelled; no claim
exercises them). -/
def ilikeContains (title pat : String) : Bool :=
  hasSub (lowerChars title) (lowerChars pat)

/-- `ItemDataService.get_multi_filtered` (src/services/ItemDataService.py,
lines 48-75).  Each optional predicate is guarded by a Python truthiness
test in the source order: `ids`, `transaction_type`, `category_id`,
`title_search`.  The category predicate is built from
`Category.category_UUID`, an attribute the ORM `Category` model does not
define (its primary key is `id`), so constructing it raises
`AttributeError` whenever `category_id` is truthy.  Ordering is by
creation time descending, then offset/limit. -/
def get_multi_filtered (db : DB) (ids : Option (List ItemUUID))
    (category_id : Option (List ItemUUID)) (transaction_type : Option TransactionType)
    (title_search : Option String) (skip limit : Nat) : Except PyError (List Item) :=
  let q0 := db.items
  let q1 := if truthyList ids then
      q0.filter (fun it => (ids.getD []).contains it.item_UUID) else q0
  let q2 := if truthyTT transaction_type then
      q1.filter (fun it => transaction_type == some it.transaction_type) else q1
  if truthyList category_id then
    Except.error PyError.attributeError
  else
    let q3 := q2
    let q4 := if truthyStr title_search then
        q3.filter (fun it => ilikeContains it.title (title_search.getD "")) else q3
    Except.ok (paginate (sortByCreatedDesc q4) skip limit)

/-- `JobDataService.get_job` (src/services/JobDataService.py). -/
def JobDataService.get_job (jobs : List Job) (job_id : ItemUUID) : Option Job :=
  jobs.find? (fun j => j.job_UUID == job_id)

/-- `JobDataService.create_job`: inserts a new PENDING row with the given
(caller-generated) id. -/
def JobDataService.create_job (jobs : List Job) (job_id : ItemUUID) : Job × List Job :=
  let db_job : Job := { job_UUID := job_id, status := JobStatus.PENDING,
                        item_UUID := none, error_message := none }
  (db_job, jobs ++ [db_job])

/-- `JobDataService.update_job_status` (src/services/JobDataService.py,
lines 26-44): loads the job, overwrites `status`, sets `item_UUID` only if
`result_item_id` is truthy, sets `error_message` only if truthy (an empty
string is falsy); a missing job id is a tolerated no-op. -/
def JobDataService.update_job_status (jobs : List Job) (job_id : ItemUUID)
    (status_ : JobStatus) (result_item_id : Option ItemUUID)
    (error_message : Option String) : List Job × Option Job :=
  match JobDataService.get_job jobs job_id with
  | none => (jobs, none)
  | some db_job =>
    let j1 := { db_job with status := status_ }
    let j2 := match result_item_id with
      | some rid => { j1 with item_UUID := some rid }
      | none => j1
    let j3 := match error_message with
      | some m => if m = "" then j2 else { j2 with error_message := some m }
      | none => j2
    (jobs.map (fun x => if x.job_UUID == job_id then j3 else x), some j3)

/-- `run_item_creation_task` (src/resources/item_resource.py, lines 14-51).
This is a SYNC function (FastAPI runs it in a threadpool), but every
service method it calls — `JobDataService.update_job_status`,
`ItemDataService.create` — is an `async def`.  Called without `await`,
each call merely builds a coroutine object and discards it, so none of the
bodies ever runs.  In detail: the RUNNING update is an unawaited
coroutine; `ItemCreate(**item_in_dict)` re-validates the snapshot
(successfully, for a payload that validated once); `new_item` is bound to
the coroutine returned by `create`; evaluating `new_item.item_UUID` for
the COMPLETED update raises `AttributeError` (a coroutine object has no
such attribute), which the `except` block catches; the FAILED update there
is again an unawaited coroutine.  Net effect: neither the jobs table nor
the items table changes. -/
def run_item_creation_task (jobs : List Job) (itemdb : DB) (now : PyDateTime)
    (newId : ItemUUID) (job_id : ItemUUID) (item_in_dict : ItemCreate) :
    List Job × DB :=
  let _running : PyCoroutine (List Job × Option Job) :=
    { resume := JobDataService.update_job_status jobs job_id JobStatus.RUNNING none none }
  let item_in_obj := item_in_dict
  let _new_item : PyCoroutine (Except PyError (Item × DB)) :=
    { resume := ItemDataService.create itemdb now newId item_in_obj }
  let _e := PyError.attributeError
  let _failed : PyCoroutine (List Job × Option Job) :=
    { resume := JobDataService.update_job_status jobs job_id JobStatus.FAILED none
        (some "AttributeError") }
  (jobs, itemdb)

/-- The character for a decimal digit. -/
def digitChar (n : Nat) : Char :=
  Char.ofNat (48 + n)

/-- Zero-padded fixed-width decimal rendering, most significant digit
first: the `%04d`, `%02d` and `%06d` paddings of `datetime.isoformat`. -/
def padDigits : Nat → Nat → List Char
  | 0, _ => []
  | w + 1, n => digitChar (n / 10 ^ w) :: padDigits w (n % 10 ^ w)

/-- `datetime.isoformat()` on a naive timestamp:
`YYYY-MM-DDTHH:MM:SS`, with `.ffffff` appended exactly when the
microsecond field is nonzero. -/
def isoformat (d : PyDateTime) : List Char :=
  padDigits 4 d.year ++ ('-' :: (padDigits 2 d.month ++ ('-' :: (padDigits 2 d.day ++
  ('T' :: (padDigits 2 d.hour ++ (':' :: (padDigits 2 d.minute ++ (':' ::
  (padDigits 2 d.second ++
  (if d.microsecond = 0 then [] else '.' :: padDigits 6 d.microsecond)))))))))))

/-- Is the character a decimal digit? -/
def isDigitCh (c : Char) : Bool :=
  48 ≤ c.toNat && c.toNat ≤ 57

/-- Read exactly `w` decimal digits, accumulating onto `acc`. -/
def readDigits : Nat → Nat → List Char → Option (Nat × List Char)
  | acc, 0, cs => some (acc, cs)
  | _, _ + 1, [] => none
  | acc, w + 1, c :: cs =>
    if isDigitCh c then readDigits (acc * 10 + (c.toNat - 48)) w cs else none

/-- Consume one expected character. -/
def expectChar (c : Char) : List Char → Option (List Char)
  | [] => none
  | x :: xs => if x = c then some xs else none

/-- Is a year divisible as a Gregorian leap year? -/
def isLeapYear (y : Nat) : Bool :=
  (y % 4 = 0 && y % 100 ≠ 0) || y % 400 = 0

/-- Days in a month, as `datetime` validates them. -/
def daysInMonth (y m : Nat) : Nat :=
  if m = 2 then (if isLeapYear y then 29 else 28)
  else if m = 4 ∨ m = 6 ∨ m = 9 ∨ m = 11 then 30
  else 31

/-- The range checks of the `datetime` constructor (MINYEAR = 1,
MAXYEAR = 9999). -/
def PyDateTime.valid (d : PyDateTime) : Bool :=
  decide (1 ≤ d.year ∧ d.year ≤ 9999 ∧ 1 ≤ d.month ∧ d.month ≤ 12 ∧
          1 ≤ d.day ∧ d.day ≤ daysInMonth d.year d.month ∧
          d.hour ≤ 23 ∧ d.minute ≤ 59 ∧ d.second ≤ 59 ∧ d.microsecond ≤ 999999)

/-- The `datetime(...)` constructor: validates the fields or raises
`ValueError` (modelled as `none`). -/
def mkValidDateTime (y mo dy h mi s us : Nat) : Option PyDateTime :=
  let d : PyDateTime := ⟨y, mo, dy, h, mi, s, us⟩
  if d.valid then some d else none

/-- `datetime.fromisoformat` on the grammar `datetime.isoformat` emits
(which is what this service round-trips through its ETag headers):
`YYYY-MM-DD`, optionally followed by a separator (`T` or space) and
`HH:MM:SS`, optionally followed by a 6-digit fraction.  Anything else —
wrong punctuation, non-digits, missing fields, trailing characters, or
field values the `datetime` constructor rejects — raises `ValueError`
(modelled as `none`). -/
def fromisoformat (cs : List Char) : Option PyDateTime :=
  match readDigits 0 4 cs with
  | none => none
  | some (y, cs1) =>
    match expectChar '-' cs1 with
    | none => none
    | some cs2 =>
      match readDigits 0 2 cs2 with
      | none => none
      | some (mo, cs3) =>
        match expectChar '-' cs3 with
        | none => none
        | some cs4 =>
          match readDigits 0 2 cs4 with
          | none => none
          | some (dy, cs5) =>
            match cs5 with
            | [] => mkValidDateTime y mo dy 0 0 0 0
            | sep :: cs6 =>
              if sep = 'T' ∨ sep = ' ' then
                match readDigits 0 2 cs6 with
                | none => none
                | some (h, cs7) =>
                  match expectChar ':' cs7 with
                  | none => none
                  | some cs8 =>
                    match readDigits 0 2 cs8 with
                    | none => none
                    | some (mi, cs9) =>
                      match expectChar ':' cs9 with
                      | none => none
                      | some cs10 =>
                        match readDigits 0 2 cs10 with
                        | none => none
                        | some (s, cs11) =>
                          match cs11 with
                          | [] => mkValidDateTime y mo dy h mi s 0
                          | c :: frac =>
                            if c = '.' then
                              match readDigits 0 6 frac with
                              | none => none
                              | some (us, rest) =>
                                if rest = [] then mkValidDateTime y mo dy h mi s us
                                else none
                            else none
              else none

/-- `if_match.strip('"')` — Python `str.strip` removes ALL leading and
trailing characters of the given set, however many. -/
def stripQuotes (cs : List Char) : List Char :=
  ((cs.dropWhile (fun c => c == '"')).reverse.dropWhile (fun c => c == '"')).reverse

/-- The ETag header value the endpoints emit:
`f'"{updated_at.isoformat()}"'`. -/
def etag_header (d : PyDateTime) : List Char :=
  '"' :: (isoformat d ++ ['"'])

/-- The `get_item` endpoint (src/resources/item_resource.py, lines
149-167).  It is a SYNC `def` but `item_service.get` is an `async def`:
the call returns an unawaited coroutine object; `if not item:` finds the
coroutine truthy, so the 404 branch is skipped, and
`item.updated_at.isoformat()` then raises `AttributeError` on the
coroutine object — an HTTP 500 on every request, for every store. -/
def get_item_ep (db : DB) (item_id : ItemUUID) : Except PyError (Item × List Char) :=
  let _item : PyCoroutine (Option Item) := { resume := MySQLDataService.get db item_id }
  Except.error PyError.attributeError

/-- The `update_item` endpoint (src/resources/item_resource.py, lines
169-198).  The If-Match parsing block (lines 179-187) runs first and as
written: strip the quotes, `datetime.fromisoformat`, and 400 exactly when
parsing raises.  After a successful parse, `item_service.update_with_lock`
— an `async def` — is called without `await` from this sync endpoint:
`updated_item` is an unawaited coroutine (the update body never runs) and
`updated_item.updated_at` raises `AttributeError` — an HTTP 500. -/
def update_item_ep (db : DB) (now : PyDateTime) (item_id : ItemUUID)
    (item_update : ItemUpdate) (if_match : List Char) :
    Except PyError (Item × List Char) × DB :=
  match fromisoformat (stripQuotes if_match) with
  | none => (Except.error PyError.badRequest400, db)
  | some expected_updated_at =>
    let _updated_item : PyCoroutine (Except PyError Item × DB) :=
      { resume := update_with_lock db now item_id item_update expected_updated_at }
    (Except.error PyError.attributeError, db)

/-- C1: for every store, commit clock, item id, partial-update payload and
client-supplied expected timestamp, `update_with_lock` fails with
NOT_FOUND exactly when no item row with that id exists; it fails with
PRECONDITION_FAILED exactly when the row exists and its current
`updated_at` is not equal to the expected timestamp (exact equality, in
either direction — not newer-than); on any failure the store (items,
categories and links alike) is returned unchanged, and these are the only
failure outcomes. -/
theorem C1_update_with_lock_failure_modes (db : DB) (now : PyDateTime)
    (item_id : ItemUUID) (u : ItemUpdate) (e : PyDateTime) :
    ((update_with_lock db now item_id u e).1 = Except.error PyError.notFound404 ↔
      findItem db item_id = none)
    ∧ ((update_with_lock db now item_id u e).1 = Except.error PyError.precondition412 ↔
      ∃ it, findItem db item_id = some it ∧ it.updated_at ≠ e)
    ∧ (∀ err, (update_with_lock db now item_id u e).1 = Except.error err →
      (update_with_lock db now item_id u e).2 = db ∧
        (err = PyError.notFound404 ∨ err = PyError.precondition412)) := by
  have hcz : ¬ "category_UUIDs" ∈ u.fields_set := by
    intro hmem
    have h := List.all_eq_true.mp u.wf _ hmem
    exact absurd (of_decide_eq_true h) (by decide)
  unfold update_with_lock
  cases hf : findItem db item_id with
  | none => simp
  | some it =>
    by_cases ht : it.updated_at = e
    · simp [ht, hcz]
    · simp [ht, hcz]

/-- C2 (evaluation of the code at the failing behaviour): `update_with_lock`
never changes the item-category link table (nor the categories table): the
category-replacement block is guarded by
`"category_UUIDs" in item_update.model_fields_set`, a field name the
`ItemUpdate` model does not declare, so even a successful update whose
payload sets `category_ids` (empty list or not) leaves the link set
untouched. -/
theorem C2_update_never_touches_links (db : DB) (now : PyDateTime)
    (item_id : ItemUUID) (u : ItemUpdate) (e : PyDateTime) :
    ((update_with_lock db now item_id u e).2).links = db.links
    ∧ ((update_with_lock db now item_id u e).2).categories = db.categories := by
  unfold update_with_lock
  cases hf : findItem db item_id with
  | none => exact ⟨rfl, rfl⟩
  | some db_obj =>
    by_cases ht : db_obj.updated_at = e
    · by_cases hcz : "category_UUIDs" ∈ u.fields_set
      · simp [ht, hcz]
      · by_cases hob : applyUpdateData u db_obj = db_obj
        · simp [ht, hcz, hob]
        · simp [ht, hcz, hob]
    · simp [ht]

/-- C3 (evaluation of the code at the failing behaviour): the
materialization routine `run_item_creation_task` performs no state change
at all — every async service call inside it is made without `await` from a
sync context — so a job created PENDING by `create_job` stays PENDING
forever and receives zero terminal status updates: the claimed
PENDING → RUNNING → COMPLETED/FAILED walk never happens. -/
theorem C3_task_never_updates_job (jobs : List Job) (itemdb : DB)
    (now : PyDateTime) (newId : ItemUUID) (job_id : ItemUUID)
    (payload : ItemCreate) :
    run_item_creation_task jobs itemdb now newId job_id payload = (jobs, itemdb)
    ∧ (JobDataService.create_job jobs job_id).1.status = JobStatus.PENDING :=
  ⟨rfl, rfl⟩

/-- C4 (evaluation of the code at the failing input): `ItemDataService.create`
raises `TypeError` on EVERY payload — `model_dump()` keeps the key
`category_ids` because the pop looks for the nonexistent key
`category_UUIDs`, and the declarative `Item(**create_data)` constructor
rejects the unknown keyword — so no valid payload is ever persisted and
`create` followed by `get` never yields a stored item. -/
theorem C4_create_always_raises (db : DB) (now : PyDateTime)
    (newId : ItemUUID) (p : ItemCreate) :
    ItemDataService.create db now newId p = Except.error PyError.typeError := rfl

/-- 2025-02-20 11:22:33, a sample stored timestamp. -/
def t0 : PyDateTime := ⟨2025, 2, 20, 11, 22, 33, 0⟩

/-- 2025-02-21 13:00:00, a later clock value. -/
def t1 : PyDateTime := ⟨2025, 2, 21, 13, 0, 0, 0⟩

/-- A store holding one category (id 10) and no items. -/
def catDB : DB :=
  { items := [],
    categories := [{ id := 10, name := "FURNITURE", description := none }],
    links := [] }

/-- The spec's example payload, asking for category ids 10 (existing) and
99 (not existing). -/
def sofaPayload : ItemCreate :=
  { title := "Sofa", description := some "Brown sofa.",
    condition := ConditionType.LIKE_NEW, transaction_type := TransactionType.SALE,
    price := 200, address_UUID := none, image_urls := [], category_ids := [10, 99] }

/-- C5 (evaluation of the code at the failing input): creating an item
whose requested category ids partially resolve (10 exists in `catDB`, 99
does not) does not succeed with the resolvable subset linked — it raises
`TypeError` before anything is persisted. -/
theorem C5_partial_categories_create_raises :
    ItemDataService.create catDB t0 7 sofaPayload = Except.error PyError.typeError := rfl

/-- C7 (evaluation of the code at the failing input): whenever a (truthy)
category filter is supplied, `get_multi_filtered` raises `AttributeError`
while building the category-membership predicate — the ORM model has
`Category.id`, not `Category.category_UUID` — instead of returning the
conjunctively filtered listing. -/
theorem C7_category_filter_raises (db : DB) (ids : Option (List ItemUUID))
    (c : ItemUUID) (cl : List ItemUUID) (tt : Option TransactionType)
    (ts : Option String) (skip limit : Nat) :
    get_multi_filtered db ids (some (c :: cl)) tt ts skip limit =
      Except.error PyError.attributeError := rfl

/-- C9: in `get_multi_filtered` an empty id list and an empty title-search
string are treated exactly like absent filters, because each predicate is
guarded by a Python truthiness test: such a call equals the call with the
filters absent, and with no other predicate it returns the full listing
under the same ordering and pagination. -/
theorem C9_empty_filters_are_absent (db : DB) (tt : Option TransactionType)
    (skip limit : Nat) :
    (get_multi_filtered db (some []) none tt (some "") skip limit =
      get_multi_filtered db none none tt none skip limit)
    ∧ get_multi_filtered db (some []) none none (some "") skip limit =
      Except.ok (paginate (sortByCreatedDesc db.items) skip limit) :=
  ⟨rfl, rfl⟩

/-- A sample stored item, last modified at `t0`. -/
def sofaItem : Item :=
  { item_UUID := 1, title := "Sofa", description := none,
    condition := ConditionType.LIKE_NEW, transaction_type := TransactionType.SALE,
    price := 200, address_UUID := none, image_urls := [],
    created_at := t0, updated_at := t0 }

/-- A store holding just `sofaItem`. -/
def oneItemDB : DB := { items := [sofaItem], categories := [], links := [] }

/-- The empty PATCH payload: no field explicitly set. -/
def emptyUpdate : ItemUpdate :=
  { title := none, description := none, condition := none, category_ids := none,
    transaction_type := none, price := none, address_UUID := none,
    image_urls := none, fields_set := [], wf := by decide }

/-- A PATCH payload setting only the title. -/
def titleUpdate : ItemUpdate :=
  { title := some "Chair", description := none, condition := none,
    category_ids := none, transaction_type := none, price := none,
    address_UUID := none, image_urls := none, fields_set := ["title"],
    wf := by decide }

/-- `sofaItem` after `titleUpdate` commits at clock `t1`. -/
def sofaRetitled : Item := { sofaItem with title := "Chair", updated_at := t1 }

/-- The store after the successful retitling update. -/
def oneItemDBAfter : DB := { items := [sofaRetitled], categories := [], links := [] }

/-- C6 counterexample: at a strictly later clock `t1`, `update_with_lock`
with the correct expected timestamp `t0` and an empty partial payload
SUCCEEDS yet returns the row with `updated_at` still equal to `t0` — this
successful mutation does not change the timestamp, contradicting the claim
that the returned `updated_at` always differs from the expected one. -/
theorem C6_counterexample :
    (update_with_lock oneItemDB t1 1 emptyUpdate t0).1 = Except.ok sofaItem
    ∧ sofaItem.updated_at = t0 ∧ t0 ≠ t1 :=
  ⟨rfl, rfl, by decide⟩

/-- C6 (amended): on any successful `update_with_lock`, if the applied
payload actually changes at least one mapped column of the row, the
returned item's `updated_at` is set to the commit-time clock `now` — so it
changes, and strictly advances past the expected timestamp whenever the
clock has advanced; if the payload changes no column (an empty payload, a
payload setting only `category_ids`, or one rewriting current values) the
row is returned completely unchanged, its `updated_at` still the expected
timestamp. -/
theorem C6_updated_at_on_success (db : DB) (now : PyDateTime)
    (item_id : ItemUUID) (u : ItemUpdate) (e : PyDateTime) (it : Item)
    (db' : DB) (db_obj : Item)
    (hres : update_with_lock db now item_id u e = (Except.ok it, db'))
    (hfind : findItem db item_id = some db_obj) :
    (applyUpdateData u db_obj ≠ db_obj → it.updated_at = now)
    ∧ (applyUpdateData u db_obj = db_obj → it = db_obj ∧ it.updated_at = e) := by
  unfold update_with_lock at hres
  split at hres
  next heq => simp at hres
  next db_obj2 heq =>
    rw [hfind] at heq
    injection heq with heq2
    subst heq2
    split at hres
    next ht2 =>
      split at hres
      next hcz => simp at hres
      next hcz =>
        rw [Prod.mk.injEq] at hres
        have h1 : commitRow now db_obj (applyUpdateData u db_obj) = it := by
          simpa using hres.1
        constructor
        · intro hne
          rw [← h1]
          unfold commitRow
          rw [if_neg hne]
        · intro heq'
          rw [← h1]
          unfold commitRow
          rw [if_pos heq', heq']
          exact ⟨rfl, ht2⟩
    next ht2 => simp at hres

/-- C6 witness: the amended theorem applied at the concrete retitling
update — the commit stamps the row with the clock `t1`. -/
theorem C6_updated_at_witness : sofaRetitled.updated_at = t1 :=
  (C6_updated_at_on_success oneItemDB t1 1 titleUpdate t0 sofaRetitled
    oneItemDBAfter sofaItem rfl rfl).1 (by decide)

theorem digitChar_toNat (d : Nat) (h : d < 10) : (digitChar d).toNat = 48 + d := by
  interval_cases d <;> rfl

theorem isDigitCh_digitChar (d : Nat) (h : d < 10) : isDigitCh (digitChar d) = true := by
  interval_cases d <;> rfl

theorem length_padDigits (w n : Nat) : (padDigits w n).length = w := by
  induction w generalizing n with
  | zero => rfl
  | succ k ih => simp [padDigits, ih]

theorem readDigits_padDigits (w : Nat) :
    ∀ acc n rest, n < 10 ^ w →
      readDigits acc w (padDigits w n ++ rest) = some (acc * 10 ^ w + n, rest) := by
  induction w with
  | zero =>
    intro acc n rest h
    have hn : n = 0 := by simpa using Nat.lt_one_iff.mp (by simpa using h)
    subst hn
    simp [padDigits, readDigits]
  | succ k ih =>
    intro acc n rest h
    have hd : n / 10 ^ k < 10 := Nat.div_lt_of_lt_mul (by rw [← pow_succ]; exact h)
    have hm : n % 10 ^ k < 10 ^ k := Nat.mod_lt _ (by positivity)
    have key : (acc * 10 + n / 10 ^ k) * 10 ^ k + n % 10 ^ k = acc * 10 ^ (k + 1) + n := by
      have hdm : 10 ^ k * (n / 10 ^ k) + n % 10 ^ k = n := Nat.div_add_mod n (10 ^ k)
      calc (acc * 10 + n / 10 ^ k) * 10 ^ k + n % 10 ^ k
          = acc * (10 ^ k * 10) + (10 ^ k * (n / 10 ^ k) + n % 10 ^ k) := by ring
        _ = acc * (10 ^ k * 10) + n := by rw [hdm]
        _ = acc * 10 ^ (k + 1) + n := by rw [← pow_succ]
    rw [show padDigits (k + 1) n = digitChar (n / 10 ^ k) :: padDigits k (n % 10 ^ k) from rfl,
      List.cons_append]
    rw [show readDigits acc (k + 1) (digitChar (n / 10 ^ k) :: (padDigits k (n % 10 ^ k) ++ rest))
        = if isDigitCh (digitChar (n / 10 ^ k)) then
            readDigits (acc * 10 + ((digitChar (n / 10 ^ k)).toNat - 48)) k
              (padDigits k (n % 10 ^ k) ++ rest)
          else none from rfl]
    rw [isDigitCh_digitChar _ hd, if_pos rfl, digitChar_toNat _ hd,
      Nat.add_sub_cancel_left, ih _ _ _ hm, key]

theorem readDigits_padDigits0 (w n : Nat) (h : n < 10 ^ w) :
    ∀ rest, readDigits 0 w (padDigits w n ++ rest) = some (n, rest) := by
  intro rest
  simpa using readDigits_padDigits w 0 n rest h

theorem readDigits_padDigits_nil (w n : Nat) (h : n < 10 ^ w) :
    readDigits 0 w (padDigits w n) = some (n, []) := by
  simpa using readDigits_padDigits0 w n h []

theorem expectChar_self (c : Char) (cs : List Char) : expectChar c (c :: cs) = some cs := by
  simp [expectChar]

theorem daysInMonth_le_31 (y m : Nat) : daysInMonth y m ≤ 31 := by
  unfold daysInMonth
  split_ifs <;> omega

theorem dropWhile_quote_replicate (n : Nat) (s : List Char) :
    List.dropWhile (fun c => c == '"') (List.replicate n '"' ++ s) =
      List.dropWhile (fun c => c == '"') s := by
  induction n with
  | zero => rfl
  | succ k ih => simp [List.replicate_succ, ih]

theorem dropWhile_quote_of_not_mem (s : List Char) (h : ¬ '"' ∈ s) :
    List.dropWhile (fun c => c == '"') s = s := by
  cases s with
  | nil => rfl
  | cons a t =>
    have ha : (a == '"') = false := by
      have hne : ¬ a = '"' := fun he => h (by rw [← he]; exact List.mem_cons_self a t)
      exact beq_eq_false_iff_ne.mpr hne
    simp [List.dropWhile, ha]

theorem stripQuotes_wrap (n m : Nat) (s : List Char) (hs : s ≠ [])
    (hq : ¬ '"' ∈ s) :
    stripQuotes (List.replicate n '"' ++ (s ++ List.replicate m '"')) = s := by
  unfold stripQuotes
  rw [dropWhile_quote_replicate]
  cases s with
  | nil => exact absurd rfl hs
  | cons a t =>
    have ha : ¬ a = '"' := fun he => hq (by rw [← he]; exact List.mem_cons_self a t)
    have hq2 : ¬ '"' ∈ (t.reverse ++ [a]) := by
      intro hmem
      rcases List.mem_append.mp hmem with h' | h'
      · exact hq (List.mem_cons_of_mem a (List.mem_reverse.mp h'))
      · exact ha (List.mem_singleton.mp h').symm
    rw [List.cons_append, List.dropWhile_cons_of_neg (by simpa using ha)]
    rw [show ((a :: (t ++ List.replicate m '"')).reverse)
        = List.replicate m '"' ++ (t.reverse ++ [a]) from by
      simp [List.reverse_cons, List.reverse_append]]
    rw [dropWhile_quote_replicate, dropWhile_quote_of_not_mem _ hq2]
    simp

theorem isoformat_ne_nil (d : PyDateTime) : isoformat d ≠ [] := by
  intro he
  have hlen := congrArg List.length he
  simp [isoformat, length_padDigits] at hlen

theorem quote_not_mem_padDigits (w n : Nat) (h : n < 10 ^ w) :
    ¬ '"' ∈ padDigits w n := by
  induction w generalizing n with
  | zero => simp [padDigits]
  | succ k ih =>
    have hd : n / 10 ^ k < 10 := Nat.div_lt_of_lt_mul (by rw [← pow_succ]; exact h)
    have hm : n % 10 ^ k < 10 ^ k := Nat.mod_lt _ (by positivity)
    simp only [padDigits, List.mem_cons]
    rintro (he | hmem)
    · have h1 := digitChar_toNat _ hd
      rw [← he] at h1
      have h2 : ('"').toNat = 34 := rfl
      rw [h2] at h1
      have h3 : (48 : Nat) ≤ 34 := h1.symm ▸ Nat.le_add_right 48 (n / 10 ^ k)
      exact absurd h3 (by norm_num)
    · exact ih _ hm hmem

theorem quote_not_mem_isoformat (d : PyDateTime) (h : d.valid = true) :
    ¬ '"' ∈ isoformat d := by
  have h' := h
  unfold PyDateTime.valid at h'
  have hp := of_decide_eq_true h'
  obtain ⟨h1, h2, h3, h4, h5, h6, h7, h8, h9, h10⟩ := hp
  have hd31 := daysInMonth_le_31 d.year d.month
  have hy : d.year < 10 ^ 4 := by norm_num; omega
  have hmo : d.month < 10 ^ 2 := by norm_num; omega
  have hdy : d.day < 10 ^ 2 := by norm_num; omega
  have hhh : d.hour < 10 ^ 2 := by norm_num; omega
  have hmi : d.minute < 10 ^ 2 := by norm_num; omega
  have hsec : d.second < 10 ^ 2 := by norm_num; omega
  have hus : d.microsecond < 10 ^ 6 := by norm_num; omega
  have p4 := quote_not_mem_padDigits 4 d.year hy
  have pmo := quote_not_mem_padDigits 2 d.month hmo
  have pdy := quote_not_mem_padDigits 2 d.day hdy
  have phh := quote_not_mem_padDigits 2 d.hour hhh
  have pmi := quote_not_mem_padDigits 2 d.minute hmi
  have psec := quote_not_mem_padDigits 2 d.second hsec
  have pus := quote_not_mem_padDigits 6 d.microsecond hus
  by_cases hus0 : d.microsecond = 0 <;>
    simp [isoformat, hus0, p4, pmo, pdy, phh, pmi, psec, pus,
      show ¬ (('"':Char) = '-') from by decide,
      show ¬ (('"':Char) = 'T') from by decide,
      show ¬ (('"':Char) = ':') from by decide,
      show ¬ (('"':Char) = '.') from by decide]

theorem fromisoformat_isoformat (d : PyDateTime) (h : d.valid = true) :
    fromisoformat (isoformat d) = some d := by
  have h' := h
  unfold PyDateTime.valid at h'
  have hp := of_decide_eq_true h'
  obtain ⟨h1, h2, h3, h4, h5, h6, h7, h8, h9, h10⟩ := hp
  have hd31 := daysInMonth_le_31 d.year d.month
  have hy : d.year < 10 ^ 4 := by norm_num; omega
  have hmo : d.month < 10 ^ 2 := by norm_num; omega
  have hdy : d.day < 10 ^ 2 := by norm_num; omega
  have hhh : d.hour < 10 ^ 2 := by norm_num; omega
  have hmi : d.minute < 10 ^ 2 := by norm_num; omega
  have hsec : d.second < 10 ^ 2 := by norm_num; omega
  have hus : d.microsecond < 10 ^ 6 := by norm_num; omega
  have Ry := readDigits_padDigits0 4 d.year hy
  have Rmo := readDigits_padDigits0 2 d.month hmo
  have Rdy := readDigits_padDigits0 2 d.day hdy
  have Rhh := readDigits_padDigits0 2 d.hour hhh
  have Rmi := readDigits_padDigits0 2 d.minute hmi
  have Rsec := readDigits_padDigits0 2 d.second hsec
  have RsecNil := readDigits_padDigits_nil 2 d.second hsec
  have Rus := readDigits_padDigits_nil 6 d.microsecond hus
  by_cases hus0 : d.microsecond = 0
  · have heta0 : (⟨d.year, d.month, d.day, d.hour, d.minute, d.second, 0⟩ : PyDateTime) = d := by
      rw [← hus0]
    simp [isoformat, fromisoformat, hus0, Ry, Rmo, Rdy, Rhh, Rmi, RsecNil,
      expectChar_self, mkValidDateTime, heta0, h]
  · have heta : (⟨d.year, d.month, d.day, d.hour, d.minute, d.second,
        d.microsecond⟩ : PyDateTime) = d := rfl
    simp [isoformat, fromisoformat, hus0, Ry, Rmo, Rdy, Rhh, Rmi, Rsec, Rus,
      expectChar_self, mkValidDateTime, heta, h]

/-- C10: the If-Match parsing of the partial-update endpoint is lenient
about quoting — `if_match.strip('"')` removes every leading and trailing
double-quote character, so an unquoted ISO-8601 timestamp, or one wrapped
in any number of quotes on either side, parses to exactly the same
timestamp as the properly quoted form — and the endpoint's 400 rejection
occurs precisely when the quote-stripped header fails ISO-8601 parsing. -/
theorem C10_if_match_quote_leniency (n m : Nat) (d : PyDateTime)
    (h : d.valid = true) :
    fromisoformat (stripQuotes
        (List.replicate n '"' ++ (isoformat d ++ List.replicate m '"'))) = some d
    ∧ ∀ (db : DB) (now : PyDateTime) (item_id : ItemUUID) (u : ItemUpdate)
        (hdr : List Char),
        ((update_item_ep db now item_id u hdr).1 = Except.error PyError.badRequest400
          ↔ fromisoformat (stripQuotes hdr) = none) := by
  constructor
  · rw [stripQuotes_wrap n m (isoformat d) (isoformat_ne_nil d)
      (quote_not_mem_isoformat d h)]
    exact fromisoformat_isoformat d h
  · intro db now item_id u hdr
    unfold update_item_ep
    cases hp : fromisoformat (stripQuotes hdr) with
    | none => simp
    | some e => simp

/-- C10 witness: the timestamp 2025-02-21 13:00:00 wrapped in two leading
double quotes and none trailing still parses back to itself. -/
theorem C10_if_match_quote_leniency_witness :
    fromisoformat (stripQuotes
        (List.replicate 2 '"' ++ (isoformat t1 ++ List.replicate 0 '"'))) = some t1 :=
  (C10_if_match_quote_leniency 2 0 t1 (by decide)).1

/-- C8 (evaluation of the code at the failing behaviour): the single-item
fetch endpoint never returns an ETag — it is a sync `def` calling the
async `get` without `await`, so the unawaited coroutine is truthy (the 404
branch is skipped) and accessing `updated_at` on it raises
`AttributeError`, an HTTP 500, on every request and every store;
the partial-update endpoint, after successfully parsing a well-formed
quoted-ISO If-Match header (here the ETag serialization of `t0`), likewise
raises `AttributeError` instead of performing the optimistic-lock
update. -/
theorem C8_endpoints_raise_attribute_error (db : DB) (item_id : ItemUUID)
    (now : PyDateTime) (u : ItemUpdate) :
    get_item_ep db item_id = Except.error PyError.attributeError
    ∧ (update_item_ep db now item_id u (etag_header t0)).1 =
        Except.error PyError.attributeError := by
  refine ⟨rfl, ?_⟩
  have hstrip : stripQuotes (etag_header t0) = isoformat t0 := by
    have hw := stripQuotes_wrap 1 1 (isoformat t0) (isoformat_ne_nil t0)
      (quote_not_mem_isoformat t0 (by decide))
    simpa [etag_header, List.replicate] using hw
  have hparse : fromisoformat (stripQuotes (etag_header t0)) = some t0 := by
    rw [hstrip]
    exact fromisoformat_isoformat t0 (by decide)
  unfold update_item_ep
  rw [hparse]
